import Mathlib

/-!
Shallow embedding of the SigText message-signature-verification workflow.

The definitions below are translated from the TypeScript sources:
- SupabaseVerificationService (parseSMSMessage, resolveSenderAddress,
  verifyMessageSignature, saveVerificationResult, verifySMSMessage),
- the supabase client library (verifyMessage mock branch, saveVerifiedMessage,
  recordVerificationAttempt),
- the SQL functions get_organization_by_wallet and verify_message_signature
  from the setup migration,
- SMSService (signaturePatterns, parseSMSMessage),
- DataSyncService (syncData, getSyncStatus).

JavaScript regular-expression matching for the five signature tag patterns is
embedded by specialized deterministic matchers: each pattern consists of a
case-insensitive literal prefix, greedy character-class runs whose classes
exclude the following delimiter (so no backtracking can occur), and literal
delimiters; String.prototype.match without the global flag returns the
leftmost match, which findKind reproduces by scanning positions left to right.
-/

set_option maxRecDepth 8000

/-- Character class 0-9a-fA-F used by the SIG, WEB3SIG, ETH and DID patterns. -/
def isHexDigit (c : Char) : Bool :=
  c.isDigit || ('a' ≤ c && c ≤ 'f') || ('A' ≤ c && c ≤ 'F')

/-- Character class A-Za-z0-9+/= used by the SIGNATURE pattern. -/
def isBase64Char (c : Char) : Bool :=
  c.isAlpha || c.isDigit || c = '+' || c = '/' || c = '='

/-- Character class a-z0-9 under the case-insensitive flag (DID method part). -/
def isDidMethodChar (c : Char) : Bool := c.isAlpha || c.isDigit

/-- Character class a-zA-Z0-9._- (DID identifier part). -/
def isDidIdChar (c : Char) : Bool :=
  c.isAlpha || c.isDigit || c = '.' || c = '_' || c = '-'

/-- Case-insensitive character comparison (the i flag on every pattern). -/
def charEqCI (a b : Char) : Bool := a.toLower == b.toLower

/-- Strip a case-insensitive literal from the front of the input, returning
the remaining characters of the original input. -/
def stripPrefixCI : List Char → List Char → Option (List Char)
  | [], cs => some cs
  | _ :: _, [] => none
  | p :: ps, c :: cs => if charEqCI p c then stripPrefixCI ps cs else none

/-- Result of matching one signature pattern at one position: length of the
whole match and the one or two capture groups (original characters). -/
structure MatchData where
  len : Nat
  cap1 : List Char
  cap2 : List Char
  deriving DecidableEq, Repr

/-- Pattern SIG, anchored at the head of the input. -/
def matchSigAt (cs : List Char) : Option MatchData :=
  match stripPrefixCI "[sig:".data cs with
  | none => none
  | some rest =>
    let hex := rest.takeWhile isHexDigit
    if 64 ≤ hex.length then
      match rest.drop hex.length with
      | ']' :: _ => some ⟨5 + hex.length + 1, hex, []⟩
      | _ => none
    else none

/-- Pattern SIGNATURE (base64, minimum 64), anchored at the head. -/
def matchSignatureAt (cs : List Char) : Option MatchData :=
  match stripPrefixCI "[signature:".data cs with
  | none => none
  | some rest =>
    let b64 := rest.takeWhile isBase64Char
    if 64 ≤ b64.length then
      match rest.drop b64.length with
      | ']' :: _ => some ⟨11 + b64.length + 1, b64, []⟩
      | _ => none
    else none

/-- Pattern WEB3SIG (0x plus at least 128 hex characters), anchored at the head. -/
def matchWeb3At (cs : List Char) : Option MatchData :=
  match stripPrefixCI "[web3sig:0x".data cs with
  | none => none
  | some rest =>
    let hex := rest.takeWhile isHexDigit
    if 128 ≤ hex.length then
      match rest.drop hex.length with
      | ']' :: _ => some ⟨11 + hex.length + 1, hex, []⟩
      | _ => none
    else none

/-- Pattern ETH (0x plus exactly 130 hex characters), anchored at the head. -/
def matchEthAt (cs : List Char) : Option MatchData :=
  match stripPrefixCI "[eth:0x".data cs with
  | none => none
  | some rest =>
    let hex := rest.take 130
    if hex.length = 130 then
      if hex.all isHexDigit then
        match rest.drop 130 with
        | ']' :: _ => some ⟨7 + 130 + 1, hex, []⟩
        | _ => none
      else none
    else none

/-- Pattern DID (a DID URI and a hex signature of at least 64 characters),
anchored at the head; capture one is the DID, capture two the signature. -/
def matchDidAt (cs : List Char) : Option MatchData :=
  match stripPrefixCI "[did:".data cs with
  | none => none
  | some r1 =>
    match stripPrefixCI "did:".data r1 with
    | none => none
    | some r2 =>
      let meth := r2.takeWhile isDidMethodChar
      if meth.length = 0 then none
      else
        match r2.drop meth.length with
        | ':' :: r3 =>
          let idp := r3.takeWhile isDidIdChar
          if idp.length = 0 then none
          else
            match r3.drop idp.length with
            | '#' :: r4 =>
              match stripPrefixCI "sig:".data r4 with
              | none => none
              | some r5 =>
                let hex := r5.takeWhile isHexDigit
                if 64 ≤ hex.length then
                  match r5.drop hex.length with
                  | ']' :: _ =>
                    some ⟨5 + (4 + meth.length + 1 + idp.length) + 1 + 4 + hex.length + 1,
                          (cs.drop 5).take (4 + meth.length + 1 + idp.length), hex⟩
                  | _ => none
                else none
            | _ => none
        | _ => none

/-- The five signature tag patterns. -/
inductive PatKind
  | psig
  | psignature
  | pweb3
  | peth
  | pdid
  deriving DecidableEq, Repr, Fintype

/-- Dispatch a pattern kind to its anchored matcher. -/
def matchKindAt : PatKind → List Char → Option MatchData
  | .psig, cs => matchSigAt cs
  | .psignature, cs => matchSignatureAt cs
  | .pweb3, cs => matchWeb3At cs
  | .peth, cs => matchEthAt cs
  | .pdid, cs => matchDidAt cs

/-- A match found somewhere in the message: position, length and captures. -/
structure FoundMatch where
  pos : Nat
  len : Nat
  cap1 : List Char
  cap2 : List Char
  deriving DecidableEq, Repr

/-- Scan left to right for the first position where the pattern matches,
reproducing the leftmost-match rule of String.prototype.match. -/
def findKindAux (k : PatKind) : List Char → Nat → Option FoundMatch
  | [], _ => none
  | c :: rest, pos =>
    match matchKindAt k (c :: rest) with
    | some m => some ⟨pos, m.len, m.cap1, m.cap2⟩
    | none => findKindAux k rest (pos + 1)

/-- Leftmost match of one pattern in the message. -/
def findKind (k : PatKind) (cs : List Char) : Option FoundMatch :=
  findKindAux k cs 0

/-- Try the patterns in the given priority order; the first pattern that
matches anywhere in the message wins (the for loop with break). -/
def tryPatterns : List PatKind → List Char → Option (PatKind × FoundMatch)
  | [], _ => none
  | k :: ks, cs =>
    match findKind k cs with
    | some fm => some (k, fm)
    | none => tryPatterns ks cs

/-- Scheme-specific signature extraction: raw capture for SIG and SIGNATURE,
0x re-prefixing for WEB3SIG and ETH, the signature half for DID. -/
def extractSignature (k : PatKind) (fm : FoundMatch) : String :=
  match k with
  | .psig => String.mk fm.cap1
  | .psignature => String.mk fm.cap1
  | .pweb3 => "0x" ++ String.mk fm.cap1
  | .peth => "0x" ++ String.mk fm.cap1
  | .pdid => String.mk fm.cap2

/-- The DID pattern also yields the sender (the DID URI); others do not. -/
def extractSender (k : PatKind) (fm : FoundMatch) : String :=
  match k with
  | .pdid => String.mk fm.cap1
  | _ => ""

/-- Replace the first occurrence of pat by the empty string
(String.prototype.replace with a plain string argument). -/
def replaceFirst : List Char → List Char → List Char
  | [], _ => []
  | c :: cs, pat =>
    if pat.isPrefixOf (c :: cs) then (c :: cs).drop pat.length
    else c :: replaceFirst cs pat

/-- Trim of leading and trailing whitespace (String.prototype.trim). -/
def jsTrim (cs : List Char) : List Char :=
  ((cs.dropWhile Char.isWhitespace).reverse.dropWhile Char.isWhitespace).reverse

/-- Trim on strings. -/
def jsTrimS (s : String) : String := String.mk (jsTrim s.data)

/-- Lower-casing (String.prototype.toLowerCase, ASCII fragment). -/
def jsToLower (s : String) : String := String.mk (s.data.map Char.toLower)

/-- The matched substring of the original message (match index zero). -/
def matchedText (cs : List Char) (fm : FoundMatch) : List Char :=
  (cs.drop fm.pos).take fm.len

namespace SupabaseVerificationService

/-- Ephemeral output of the extractor (interface ParsedMessage; the service
uses empty strings, not null, for the missing signature and sender). -/
structure ParsedMessage where
  content : String
  signature : String
  senderAddress : String
  deriving DecidableEq, Repr

/-- Pattern priority order of the signaturePatterns array in
SupabaseVerificationService.parseSMSMessage: SIG, SIGNATURE, WEB3SIG, ETH, DID. -/
def signaturePatterns : List PatKind := [.psig, .psignature, .pweb3, .peth, .pdid]

/-- SupabaseVerificationService.parseSMSMessage: try each pattern in array
order, break on the first match, strip the matched block and trim. -/
def parseSMSMessage (smsContent : String) : ParsedMessage :=
  match tryPatterns signaturePatterns smsContent.data with
  | none => ⟨smsContent, "", ""⟩
  | some (k, fm) =>
    ⟨jsTrimS (String.mk (replaceFirst smsContent.data (matchedText smsContent.data fm))),
     extractSignature k fm, extractSender k fm⟩

end SupabaseVerificationService

namespace SMSService

/-- Ephemeral output of SMSService.parseSMSMessage (signature is null when no
pattern matched). -/
structure ParsedSMS where
  extractedContent : String
  signature : Option String
  deriving DecidableEq, Repr

/-- Pattern priority order of the signaturePatterns array in SMSService:
SIG, SIGNATURE, WEB3SIG, DID, ETH. -/
def signaturePatterns : List PatKind := [.psig, .psignature, .pweb3, .pdid, .peth]

/-- SMSService.parseSMSMessage: same loop as the verification service but over
the SMSService pattern order. -/
def parseSMSMessage (messageText : String) : ParsedSMS :=
  match tryPatterns signaturePatterns messageText.data with
  | none => ⟨messageText, none⟩
  | some (k, fm) =>
    ⟨jsTrimS (String.mk (replaceFirst messageText.data (matchedText messageText.data fm))),
     some (extractSignature k fm)⟩

end SMSService

/-- The fixed demo fallback wallet returned when sender resolution fails. -/
def mockFallbackAddress : String := "0x1111111111111111111111111111111111111111"

/-- Verification details fabricated by the mock branch of verifyMessage in the
supabase library (the wall-clock timestamp field is omitted). -/
structure MockVerificationDetails where
  method : String
  signature_format : String
  message_hash : String
  deriving DecidableEq, Repr

/-- Row returned by verifyMessage. -/
structure MockVerifyData where
  is_valid : Bool
  organization_id : String
  organization_name : String
  verification_details : MockVerificationDetails
  deriving DecidableEq, Repr

namespace SupabaseLib

/-- The mock branch of verifyMessage in the supabase library, taken when the
backend is unconfigured: valid iff the signature has at least 64 characters
and the content is non-empty, with a placeholder organization identity and a
mock-tagged details blob. -/
def verifyMessage (messageContent : String) (signature : String)
    (_senderAddress : String) : MockVerifyData :=
  { is_valid := decide (64 ≤ signature.length) && decide (0 < messageContent.length),
    organization_id := "mock-org-1",
    organization_name := "Mock Organization",
    verification_details :=
      { method := "mock", signature_format := "hex",
        message_hash := String.mk (messageContent.data.take 8) } }

end SupabaseLib

/-- The VerificationResult record returned to callers, generic in the shape of
the details blob (mock details or hosted-procedure details). -/
structure VerificationResult (D : Type) where
  isValid : Bool
  success : Bool
  organizationId : Option String := none
  organizationName : Option String := none
  verificationDetails : Option D := none
  message : Option String := none
  error : Option String := none
  deriving DecidableEq, Repr

/-- String.prototype.startsWith (case-sensitive), on the character lists. -/
def jsStartsWith (s p : String) : Bool := p.data.isPrefixOf s.data

/-- signature.replace with the anchored 0x pattern: strips one leading
lowercase 0x (the pattern has no case-insensitive flag). -/
def replaceLeading0x (s : String) : String :=
  match s.data with
  | '0' :: 'x' :: rest => String.mk rest
  | _ => s

/-- Signature normalization in verifyMessageSignature: strip one leading 0x,
then lower-case. -/
def cleanSignature (signature : String) : String := jsToLower (replaceLeading0x signature)

namespace SupabaseVerificationService

/-- Organization directory row (the columns the embedded workflow reads; the
jsonb metadata blob is represented by its phone field, and secondary wallets
by address/is-active pairs). -/
structure OrgRec where
  id : String
  name : String
  wallet_address : String
  verification_status : String
  metadataPhone : Option String := none
  secondaryWallets : List (String × Bool) := []
  deriving DecidableEq, Repr

/-- The phone-to-wallet directory query in resolveSenderAddress: first
verified organization whose metadata contains the phone, limit one. -/
def phoneDirectoryLookup (senderPhone : String) (orgs : List OrgRec) : Option String :=
  ((orgs.filter fun o =>
      o.metadataPhone == some senderPhone && o.verification_status == "verified").map
    (fun o => o.wallet_address)).head?

/-- SupabaseVerificationService.resolveSenderAddress: keep an address-shaped
hint, otherwise resolve the phone through the directory, otherwise return the
fixed demo fallback address. A failed directory query behaves like a miss. -/
def resolveSenderAddress (extractedAddress : String) (senderPhone : Option String)
    (orgs : List OrgRec) : Option String :=
  if extractedAddress != "" &&
      (jsStartsWith extractedAddress "did:" || jsStartsWith extractedAddress "0x") then
    some extractedAddress
  else
    match senderPhone with
    | some p =>
      match phoneDirectoryLookup p orgs with
      | some w => some w
      | none => some mockFallbackAddress
    | none => some mockFallbackAddress

/-- verifyMessageSignature in degraded mode: clean the inputs, call the mock
verifyMessage, and build the VerificationResult. The persistence step of the
valid branch goes through the mock saveVerifiedMessage, which touches no
store, so the function is pure here. -/
def verifyMessageSignatureMock (messageContent signature senderAddress : String) :
    VerificationResult MockVerificationDetails :=
  let cleanContent := jsTrimS messageContent
  let cleanSig := cleanSignature signature
  let cleanSender := jsToLower senderAddress
  let r := SupabaseLib.verifyMessage cleanContent cleanSig cleanSender
  { isValid := r.is_valid,
    success := true,
    organizationId := some r.organization_id,
    organizationName := some r.organization_name,
    verificationDetails := some r.verification_details,
    message := some (if r.is_valid then "Message verified from " ++ r.organization_name
                     else "Message verification failed"),
    error := none }

/-- verifySMSMessage in degraded mode: parse, resolve the sender, verify.
The falsy guard on the resolved address fires on null and on the empty
string. -/
def verifySMSMessageMock (smsContent : String) (senderPhone : Option String)
    (orgs : List OrgRec) : VerificationResult MockVerificationDetails :=
  let parsed := parseSMSMessage smsContent
  if parsed.signature = "" then
    { isValid := false, success := false, error := some "No signature found in SMS message" }
  else
    match resolveSenderAddress parsed.senderAddress senderPhone orgs with
    | none =>
      { isValid := false, success := false,
        error := some "Could not resolve sender wallet address" }
    | some addr =>
      if addr = "" then
        { isValid := false, success := false,
          error := some "Could not resolve sender wallet address" }
      else
        verifyMessageSignatureMock parsed.content parsed.signature addr

end SupabaseVerificationService

/-- Details blob produced by the hosted verify_message_signature procedure
(the sha256 message hash and the wall-clock timestamp are omitted). -/
structure RpcDetails where
  signature_length : Nat
  verification_method : String
  error : Option String := none
  deriving DecidableEq, Repr

/-- Row returned by the hosted verify_message_signature procedure. -/
structure RpcResult where
  is_valid : Bool
  organization_id : Option String
  organization_name : Option String
  verification_details : RpcDetails
  deriving DecidableEq, Repr

/-- Entire-string hex check, the anchored regular expression of the hosted
procedure restricted to its character test. -/
def isHexString (s : String) : Bool := s.data.all isHexDigit

namespace SupabaseRpc

open SupabaseVerificationService in
/-- get_organization_by_wallet: the organization whose primary wallet equals
the address or that registered it as an active secondary wallet. -/
def matchesWallet (o : OrgRec) (addr : String) : Bool :=
  o.wallet_address == addr || o.secondaryWallets.any (fun w => w.1 == addr && w.2)

open SupabaseVerificationService in
/-- The hosted verify_message_signature procedure from the setup migration:
look up a verified organization owning the sender address; if none, invalid;
otherwise valid exactly when the signature is entirely hex and at least 128
characters long. -/
def verify_message_signature (orgs : List OrgRec)
    (_message_content signature sender_addr : String) : RpcResult :=
  match (orgs.filter fun o =>
      matchesWallet o sender_addr && o.verification_status == "verified").head? with
  | none =>
    { is_valid := false, organization_id := none, organization_name := none,
      verification_details :=
        { signature_length := signature.length,
          verification_method := "supabase_function",
          error := some "Organization not found or not verified" } }
  | some o =>
    if isHexString signature && decide (128 ≤ signature.length) then
      { is_valid := true, organization_id := some o.id, organization_name := some o.name,
        verification_details :=
          { signature_length := signature.length,
            verification_method := "supabase_function" } }
    else
      { is_valid := false, organization_id := some o.id, organization_name := some o.name,
        verification_details :=
          { signature_length := signature.length,
            verification_method := "supabase_function",
            error := some "Invalid signature format" } }

end SupabaseRpc

/-- A verified_messages row. The DB-generated uuid is modelled by a counter
based id; message_hash is nullable and the client insert leaves it null. -/
structure MsgRow where
  id : String
  organization_id : Option String
  message_content : String
  signature : String
  sender_address : String
  verification_status : String
  message_hash : Option String
  deriving DecidableEq, Repr

/-- A message_verification_attempts row (the fields the client writes). -/
structure AttemptRow where
  message_id : String
  attempted_by : String
  verification_method : String
  success : Bool
  deriving DecidableEq, Repr

/-- The two backend tables touched by the Result Persister. -/
structure Db where
  messages : List MsgRow
  attempts : List AttemptRow
  deriving DecidableEq, Repr

/-- Postgres null semantics of the UNIQUE (signature, message_hash)
constraint: two rows conflict only when the signatures are equal and both
hashes are non-null and equal (nulls are distinct). -/
def hashesConflict : Option String → Option String → Bool
  | some h1, some h2 => h1 == h2
  | _, _ => false

/-- Does inserting the row violate verified_messages_signature_unique? -/
def pgUniqueConflict (row : MsgRow) (db : Db) : Bool :=
  db.messages.any fun r =>
    r.signature == row.signature && hashesConflict r.message_hash row.message_hash

/-- Fresh DB-generated row id. -/
def freshMsgId (db : Db) : String := "msg-" ++ toString db.messages.length

/-- The data the client passes to saveVerifiedMessage (no id, no hash). -/
structure MsgRowData where
  organization_id : Option String
  message_content : String
  signature : String
  sender_address : String
  verification_status : String
  message_hash : Option String := none
  deriving DecidableEq, Repr

namespace SupabaseLib

/-- saveVerifiedMessage against the configured backend: a plain insert into
verified_messages; rlsFail models a row-level-security rejection, and a
uniqueness conflict is returned as an error. Either error leaves the store
unchanged and yields no data row. -/
def saveVerifiedMessage (rlsFail : Bool) (d : MsgRowData) (db : Db) :
    Option MsgRow × Db :=
  if rlsFail then (none, db)
  else
    let row : MsgRow :=
      { id := freshMsgId db, organization_id := d.organization_id,
        message_content := d.message_content, signature := d.signature,
        sender_address := d.sender_address,
        verification_status := d.verification_status,
        message_hash := d.message_hash }
    if pgUniqueConflict row db then (none, db)
    else (some row, { db with messages := db.messages ++ [row] })

/-- recordVerificationAttempt against the configured backend: insert into
message_verification_attempts; attFail models a rejected insert, whose error
the caller ignores. -/
def recordVerificationAttempt (attFail : Bool) (a : AttemptRow) (db : Db) : Db :=
  if attFail then db else { db with attempts := db.attempts ++ [a] }

end SupabaseLib

namespace SupabaseVerificationService

/-- Parameters of the private saveVerificationResult helper. -/
structure SaveParams where
  messageContent : String
  signature : String
  senderAddress : String
  organizationId : Option String
  verificationMethod : String
  deriving DecidableEq, Repr

/-- saveVerificationResult: insert the VerifiedMessage row; on an insert
error, log and stop; otherwise record a VerificationAttempt only when an
authenticated user is present. All failures are swallowed. -/
def saveVerificationResult (user : Option String) (rlsFail attFail : Bool)
    (p : SaveParams) (db : Db) : Db :=
  let d : MsgRowData :=
    { organization_id := p.organizationId, message_content := p.messageContent,
      signature := p.signature, sender_address := p.senderAddress,
      verification_status := "verified" }
  match SupabaseLib.saveVerifiedMessage rlsFail d db with
  | (none, db1) => db1
  | (some saved, db1) =>
    match user with
    | none => db1
    | some u =>
      SupabaseLib.recordVerificationAttempt attFail
        ⟨saved.id, u, p.verificationMethod, true⟩ db1

/-- verifyMessageSignature against the configured backend: clean the inputs,
call the hosted procedure, persist on a valid outcome, and return the
VerificationResult built from the procedure output alone. -/
def verifyMessageSignatureCfg (orgs : List OrgRec) (user : Option String)
    (rlsFail attFail : Bool) (messageContent signature senderAddress : String)
    (verificationMethod : String) (db : Db) : VerificationResult RpcDetails × Db :=
  let cleanContent := jsTrimS messageContent
  let cleanSig := cleanSignature signature
  let cleanSender := jsToLower senderAddress
  let vr := SupabaseRpc.verify_message_signature orgs cleanContent cleanSig cleanSender
  let db1 :=
    if vr.is_valid then
      saveVerificationResult user rlsFail attFail
        { messageContent := cleanContent, signature := cleanSig,
          senderAddress := cleanSender, organizationId := vr.organization_id,
          verificationMethod := verificationMethod } db
    else db
  ({ isValid := vr.is_valid,
     success := true,
     organizationId := vr.organization_id,
     organizationName := vr.organization_name,
     verificationDetails := some vr.verification_details,
     message := some (if vr.is_valid
       then "Message verified from " ++ (vr.organization_name.getD "")
       else "Message verification failed"),
     error := none }, db1)

end SupabaseVerificationService

namespace DataSyncService

/-- Mutable state of DataSyncService together with the AsyncStorage keys it
writes (lastSync, cached_organizations, cached_messages). -/
structure SyncState where
  syncInProgress : Bool
  lastSync : Option String
  cachedOrganizations : Option String
  cachedMessages : Option String
  deriving DecidableEq, Repr

/-- The SyncStatus record returned by syncData and getSyncStatus. -/
structure SyncStatus where
  lastSync : String
  pendingUploads : Nat
  syncInProgress : Bool
  errors : List String
  deriving DecidableEq, Repr

/-- Outcome of one network read: a fetched payload or a thrown error. -/
inductive FetchOutcome where
  | ok (payload : String)
  | error (msg : String)
  deriving DecidableEq, Repr

/-- Outcome of the two network reads of one sync cycle: the fetched payloads
or the error messages thrown by syncOrganizations and syncMessages. -/
structure SyncEnv where
  orgFetch : FetchOutcome
  msgFetch : FetchOutcome
  now : String
  deriving DecidableEq, Repr

/-- getSyncStatus: report the stored last sync time and the live flag. -/
def getSyncStatus (st : SyncState) : SyncStatus :=
  { lastSync := st.lastSync.getD "Never", pendingUploads := 0,
    syncInProgress := st.syncInProgress, errors := [] }

/-- The synchronous head of syncData: the guard check and, when idle, the
setting of the in-progress flag. No await separates the two, so the step is
atomic in the event loop. -/
def guardStep (st : SyncState) : Bool × SyncState :=
  if st.syncInProgress then (true, st) else (false, { st with syncInProgress := true })

/-- The body of syncData after the guard: sync organizations, then messages,
then store the completion time; any throw is caught into the errors list and
the finally block always clears the flag. The third component counts the
network fetch cycle the body performs. -/
def syncBody (e : SyncEnv) (st : SyncState) : SyncState × List String × Nat :=
  match e.orgFetch with
  | .error msg => ({ st with syncInProgress := false }, [msg], 1)
  | .ok orgsData =>
    let st1 := { st with cachedOrganizations := some orgsData }
    match e.msgFetch with
    | .error msg => ({ st1 with syncInProgress := false }, [msg], 1)
    | .ok msgsData =>
      ({ st1 with cachedMessages := some msgsData, lastSync := some e.now,
                  syncInProgress := false }, [], 1)

/-- DataSyncService.syncData: return the current status without fetching when
a sync is in flight, otherwise run one fetch cycle and rebuild the status.
The third component counts the fetch cycles this invocation performed. -/
def syncData (e : SyncEnv) (st : SyncState) : SyncStatus × SyncState × Nat :=
  let g := guardStep st
  if g.1 then (getSyncStatus st, st, 0)
  else
    let r := syncBody e g.2
    ({ lastSync := r.1.lastSync.getD "Never", pendingUploads := 0,
       syncInProgress := false, errors := r.2.1 }, r.1, r.2.2)

end DataSyncService

/-! Helper lemmas about the pattern loop. -/

theorem tryPatterns_cons_some {k : PatKind} {ks : List PatKind} {cs : List Char}
    {fm : FoundMatch} (h : findKind k cs = some fm) :
    tryPatterns (k :: ks) cs = some (k, fm) := by
  simp [tryPatterns, h]

theorem tryPatterns_cons_none {k : PatKind} {ks : List PatKind} {cs : List Char}
    (h : findKind k cs = none) :
    tryPatterns (k :: ks) cs = tryPatterns ks cs := by
  simp [tryPatterns, h]

theorem tryPatterns_of_unique {ks : List PatKind} {k : PatKind} {cs : List Char}
    {fm : FoundMatch} (hmem : k ∈ ks) (hk : findKind k cs = some fm)
    (hothers : ∀ k', k' ≠ k → findKind k' cs = none) :
    tryPatterns ks cs = some (k, fm) := by
  induction ks with
  | nil => cases hmem
  | cons a as ih =>
    by_cases hak : a = k
    · subst hak
      exact tryPatterns_cons_some hk
    · rw [tryPatterns_cons_none (hothers a hak)]
      exact ih (by cases hmem with
        | head => exact absurd rfl hak
        | tail _ hmem => exact hmem)

theorem matchSigAt_caplen {cs : List Char} {m : MatchData}
    (h : matchSigAt cs = some m) : 64 ≤ m.cap1.length := by
  simp only [matchSigAt] at h
  split at h
  · exact absurd h (by simp)
  · split at h
    next hlen =>
      split at h
      · cases h; simpa using hlen
      · exact absurd h (by simp)
    next hlen => exact absurd h (by simp)

theorem matchSignatureAt_caplen {cs : List Char} {m : MatchData}
    (h : matchSignatureAt cs = some m) : 64 ≤ m.cap1.length := by
  simp only [matchSignatureAt] at h
  split at h
  · exact absurd h (by simp)
  · split at h
    next hlen =>
      split at h
      · cases h; simpa using hlen
      · exact absurd h (by simp)
    next hlen => exact absurd h (by simp)

theorem matchWeb3At_caplen {cs : List Char} {m : MatchData}
    (h : matchWeb3At cs = some m) : 128 ≤ m.cap1.length := by
  simp only [matchWeb3At] at h
  split at h
  · exact absurd h (by simp)
  · split at h
    next hlen =>
      split at h
      · cases h; simpa using hlen
      · exact absurd h (by simp)
    next hlen => exact absurd h (by simp)

theorem matchEthAt_caplen {cs : List Char} {m : MatchData}
    (h : matchEthAt cs = some m) : m.cap1.length = 130 := by
  simp only [matchEthAt] at h
  split at h
  · exact absurd h (by simp)
  · split at h
    next hlen =>
      split at h
      · split at h
        · cases h; simpa using hlen
        · exact absurd h (by simp)
      · exact absurd h (by simp)
    next hlen => exact absurd h (by simp)

theorem matchDidAt_caplen {cs : List Char} {m : MatchData}
    (h : matchDidAt cs = some m) : 64 ≤ m.cap2.length := by
  simp only [matchDidAt] at h
  split at h
  · exact absurd h (by simp)
  · split at h
    · exact absurd h (by simp)
    · split at h
      · exact absurd h (by simp)
      · split at h
        · split at h
          · exact absurd h (by simp)
          · split at h
            · split at h
              · exact absurd h (by simp)
              · split at h
                next hlen =>
                  split at h
                  · cases h; simpa using hlen
                  · exact absurd h (by simp)
                next hlen => exact absurd h (by simp)
            · exact absurd h (by simp)
        · exact absurd h (by simp)

theorem findKindAux_caps {k : PatKind} {P : Nat → List Char → List Char → Prop}
    (hm : ∀ cs m, matchKindAt k cs = some m → P m.len m.cap1 m.cap2) :
    ∀ (cs : List Char) (pos : Nat) (fm : FoundMatch),
      findKindAux k cs pos = some fm → P fm.len fm.cap1 fm.cap2 := by
  intro cs
  induction cs with
  | nil => intro pos fm h; simp [findKindAux] at h
  | cons c rest ih =>
    intro pos fm h
    simp only [findKindAux] at h
    cases hmk : matchKindAt k (c :: rest) with
    | some m => rw [hmk] at h; cases h; exact hm _ _ hmk
    | none => rw [hmk] at h; exact ih _ _ h

theorem findKind_caps {k : PatKind} {P : Nat → List Char → List Char → Prop}
    (hm : ∀ cs m, matchKindAt k cs = some m → P m.len m.cap1 m.cap2)
    {cs : List Char} {fm : FoundMatch} (h : findKind k cs = some fm) :
    P fm.len fm.cap1 fm.cap2 :=
  findKindAux_caps hm cs 0 fm h

theorem findKind_psig_caplen {cs : List Char} {fm : FoundMatch}
    (h : findKind .psig cs = some fm) : 64 ≤ fm.cap1.length := by
  refine findKind_caps (P := fun _ c _ => 64 ≤ c.length) (fun u m hm => ?_) h
  simp only [matchKindAt] at hm
  exact matchSigAt_caplen hm

theorem findKind_psignature_caplen {cs : List Char} {fm : FoundMatch}
    (h : findKind .psignature cs = some fm) : 64 ≤ fm.cap1.length := by
  refine findKind_caps (P := fun _ c _ => 64 ≤ c.length) (fun u m hm => ?_) h
  simp only [matchKindAt] at hm
  exact matchSignatureAt_caplen hm

theorem findKind_pdid_caplen {cs : List Char} {fm : FoundMatch}
    (h : findKind .pdid cs = some fm) : 64 ≤ fm.cap2.length := by
  refine findKind_caps (P := fun _ _ c => 64 ≤ c.length) (fun u m hm => ?_) h
  simp only [matchKindAt] at hm
  exact matchDidAt_caplen hm

theorem length_mk (l : List Char) : (String.mk l).length = l.length := rfl

/-- Whenever a pattern matched, the extracted signature is non-empty, the
length witnesses coming from the minimum-length guards of the matchers. -/
theorem extractSignature_ne_empty {k : PatKind} {cs : List Char} {fm : FoundMatch}
    (h : findKind k cs = some fm) : extractSignature k fm ≠ "" := by
  cases k with
  | psig =>
    have hl := findKind_psig_caplen h
    simp only [extractSignature]
    intro heq
    have h2 := congrArg String.length heq
    simp only [length_mk] at h2
    have h1 : ("" : String).length = 0 := rfl
    omega
  | psignature =>
    have hl := findKind_psignature_caplen h
    simp only [extractSignature]
    intro heq
    have h2 := congrArg String.length heq
    simp only [length_mk] at h2
    have h1 : ("" : String).length = 0 := rfl
    omega
  | pweb3 =>
    simp only [extractSignature]
    intro heq
    have h2 := congrArg String.length heq
    rw [String.length_append] at h2
    have h0 : ("0x" : String).length = 2 := rfl
    have h1 : ("" : String).length = 0 := rfl
    omega
  | peth =>
    simp only [extractSignature]
    intro heq
    have h2 := congrArg String.length heq
    rw [String.length_append] at h2
    have h0 : ("0x" : String).length = 2 := rfl
    have h1 : ("" : String).length = 0 := rfl
    omega
  | pdid =>
    have hl := findKind_pdid_caplen h
    simp only [extractSignature]
    intro heq
    have h2 := congrArg String.length heq
    simp only [length_mk] at h2
    have h1 : ("" : String).length = 0 := rfl
    omega

/-! Concrete strings reused across the claim theorems. -/

/-- A 64-character hex signature used in examples. -/
def sig64 : String := "a1b2c3d4e5f6789012345678901234567890abcdef1234567890abcdef123456"

/-- A 130-character hex signature (Ethereum style, without the 0x). -/
def hex130 : String := String.mk (List.replicate 130 'b')

/-- A message with exactly one recognized tag (a SIG tag). -/
def c5msg : String := "Hello [SIG:" ++ sig64 ++ "] world"

/-- The leftmost SIG match inside c5msg. -/
def c5fm : FoundMatch := ⟨6, 70, sig64.data, []⟩

/-- A message whose only bracket tag fails the minimum length of every
pattern, so no pattern matches. -/
def c6msg : String := "Alert [SIG:abc123] ok"

/-- A message containing both a valid DID tag and a valid ETH tag. -/
def c2msg : String :=
  "Pay [DID:did:ethr:acme#SIG:" ++ sig64 ++ "] and [ETH:0x" ++ hex130 ++ "] end"

/-- The leftmost ETH match inside c2msg. -/
def c2fe : FoundMatch := ⟨97, 138, hex130.data, []⟩

/-- The leftmost DID match inside c2msg. -/
def c2fd : FoundMatch := ⟨4, 88, "did:ethr:acme".data, sig64.data⟩

/-- C5: for every message containing exactly one recognized signature tag,
both extractors return a non-null signature equal to the matched capture with
the scheme-specific prefix applied, and content equal to the original text
with the matched tag substring removed and surrounding whitespace trimmed. -/
theorem c5_unique_tag_extraction (msg : String) (k : PatKind) (fm : FoundMatch)
    (hk : findKind k msg.data = some fm)
    (huniq : ∀ k', k' ≠ k → findKind k' msg.data = none) :
    (SupabaseVerificationService.parseSMSMessage msg).signature = extractSignature k fm ∧
    extractSignature k fm ≠ "" ∧
    (SupabaseVerificationService.parseSMSMessage msg).content =
      jsTrimS (String.mk (replaceFirst msg.data (matchedText msg.data fm))) ∧
    (SMSService.parseSMSMessage msg).signature = some (extractSignature k fm) ∧
    (SMSService.parseSMSMessage msg).extractedContent =
      jsTrimS (String.mk (replaceFirst msg.data (matchedText msg.data fm))) := by
  have hmem1 : k ∈ SupabaseVerificationService.signaturePatterns := by
    cases k <;> simp [SupabaseVerificationService.signaturePatterns]
  have hmem2 : k ∈ SMSService.signaturePatterns := by
    cases k <;> simp [SMSService.signaturePatterns]
  have h1 := tryPatterns_of_unique hmem1 hk huniq
  have h2 := tryPatterns_of_unique hmem2 hk huniq
  refine ⟨?_, extractSignature_ne_empty hk, ?_, ?_, ?_⟩ <;>
    simp [SupabaseVerificationService.parseSMSMessage, SMSService.parseSMSMessage, h1, h2]

/-- Witness for C5 at a concrete single-tag message. -/
theorem c5_unique_tag_extraction_witness :
    (SupabaseVerificationService.parseSMSMessage c5msg).signature = extractSignature .psig c5fm ∧
    extractSignature .psig c5fm ≠ "" ∧
    (SupabaseVerificationService.parseSMSMessage c5msg).content =
      jsTrimS (String.mk (replaceFirst c5msg.data (matchedText c5msg.data c5fm))) ∧
    (SMSService.parseSMSMessage c5msg).signature = some (extractSignature .psig c5fm) ∧
    (SMSService.parseSMSMessage c5msg).extractedContent =
      jsTrimS (String.mk (replaceFirst c5msg.data (matchedText c5msg.data c5fm))) :=
  c5_unique_tag_extraction c5msg .psig c5fm (by decide) (by decide)

/-- C6: for every message in which no pattern matches, which includes every
message whose bracket tag fails its minimum length, both extractors return
the null/empty signature and the content completely unmodified (a statement
stronger than equality up to whitespace). -/
theorem c6_no_tag_identity (msg : String)
    (h : ∀ k, findKind k msg.data = none) :
    SupabaseVerificationService.parseSMSMessage msg = ⟨msg, "", ""⟩ ∧
    SMSService.parseSMSMessage msg = ⟨msg, none⟩ := by
  have h1 : tryPatterns SupabaseVerificationService.signaturePatterns msg.data = none := by
    simp [SupabaseVerificationService.signaturePatterns, tryPatterns, h]
  have h2 : tryPatterns SMSService.signaturePatterns msg.data = none := by
    simp [SMSService.signaturePatterns, tryPatterns, h]
  constructor <;>
    simp [SupabaseVerificationService.parseSMSMessage, SMSService.parseSMSMessage, h1, h2]

/-- Witness for C6 at a message whose SIG tag is below the minimum length. -/
theorem c6_no_tag_identity_witness :
    SupabaseVerificationService.parseSMSMessage c6msg = ⟨c6msg, "", ""⟩ ∧
    SMSService.parseSMSMessage c6msg = ⟨c6msg, none⟩ :=
  c6_no_tag_identity c6msg (by decide)

/-- C2 counterexample: a message containing both a valid DID tag and a valid
ETH tag yields the ETH signature, not the DID signature, in the pipeline
extractor of SupabaseVerificationService, whose pattern array orders ETH
before DID; the SMSService extractor yields the DID signature. -/
theorem c2_counterexample :
    (findKind .pdid c2msg.data).isSome = true ∧
    (findKind .peth c2msg.data).isSome = true ∧
    (SupabaseVerificationService.parseSMSMessage c2msg).signature = "0x" ++ hex130 ∧
    (SMSService.parseSMSMessage c2msg).signature = some sig64 ∧
    "0x" ++ hex130 ≠ sig64 := by decide

/-- C2 amended: the first matching pattern in the array order wins, but the
two extractors order the last two patterns differently: on a message where
only the ETH and DID patterns match, SupabaseVerificationService.parseSMSMessage
(order SIG, SIGNATURE, WEB3SIG, ETH, DID) returns the 0x-prefixed ETH capture
while SMSService.parseSMSMessage (order SIG, SIGNATURE, WEB3SIG, DID, ETH)
returns the DID signature half. -/
theorem c2_amended_priority (msg : String) (fe fd : FoundMatch)
    (hsig : findKind .psig msg.data = none)
    (hsgn : findKind .psignature msg.data = none)
    (hw3 : findKind .pweb3 msg.data = none)
    (heth : findKind .peth msg.data = some fe)
    (hdid : findKind .pdid msg.data = some fd) :
    (SupabaseVerificationService.parseSMSMessage msg).signature = "0x" ++ String.mk fe.cap1 ∧
    (SMSService.parseSMSMessage msg).signature = some (String.mk fd.cap2) := by
  have h1 : tryPatterns SupabaseVerificationService.signaturePatterns msg.data =
      some (.peth, fe) := by
    simp [SupabaseVerificationService.signaturePatterns, tryPatterns, hsig, hsgn, hw3, heth]
  have h2 : tryPatterns SMSService.signaturePatterns msg.data = some (.pdid, fd) := by
    simp [SMSService.signaturePatterns, tryPatterns, hsig, hsgn, hw3, hdid]
  constructor
  · simp [SupabaseVerificationService.parseSMSMessage, h1, extractSignature]
  · simp [SMSService.parseSMSMessage, h2, extractSignature]

/-- Witness for the amended C2 at the concrete dual-tag message. -/
theorem c2_amended_priority_witness :
    (SupabaseVerificationService.parseSMSMessage c2msg).signature = "0x" ++ String.mk c2fe.cap1 ∧
    (SMSService.parseSMSMessage c2msg).signature = some (String.mk c2fd.cap2) :=
  c2_amended_priority c2msg c2fe c2fd (by decide) (by decide) (by decide) (by decide) (by decide)

/-! Claims about the sender resolver and the degraded-mode verifier. -/

open SupabaseVerificationService in
/-- C1 counterexample: on an unresolvable hint (empty hint, no phone), the
resolver returns the fallback sentinel rather than null, and the degraded
mock verifier then reports isValid true for that sentinel whenever the
signature is long enough, because the mock check ignores the sender. -/
theorem c1_counterexample :
    resolveSenderAddress "" none [] = some mockFallbackAddress ∧
    (verifyMessageSignatureMock "Hello bank" sig64 mockFallbackAddress).isValid = true := by
  decide

open SupabaseVerificationService in
/-- C1 amended: for every unresolvable sender hint (the hint is empty or not
address shaped, and any supplied phone misses the directory) the resolver
returns the fallback sentinel, and a degraded-mode verification with that
sentinel reports isValid exactly when the cleaned signature has at least 64
characters and the trimmed content is non-empty; the sentinel therefore does
not prevent an isValid true outcome. -/
theorem c1_amended_fallback (hint : String) (phone : Option String)
    (orgs : List OrgRec) (content sig : String)
    (hhint : (hint != "" && (jsStartsWith hint "did:" || jsStartsWith hint "0x")) = false)
    (hmiss : ∀ p, phone = some p → phoneDirectoryLookup p orgs = none) :
    resolveSenderAddress hint phone orgs = some mockFallbackAddress ∧
    ((verifyMessageSignatureMock content sig mockFallbackAddress).isValid = true ↔
      (64 ≤ (cleanSignature sig).length ∧ 0 < (jsTrimS content).length)) := by
  constructor
  · unfold SupabaseVerificationService.resolveSenderAddress
    rw [hhint]
    cases phone with
    | none => rfl
    | some p => simp [hmiss p rfl]
  · simp [SupabaseVerificationService.verifyMessageSignatureMock, SupabaseLib.verifyMessage]

open SupabaseVerificationService in
/-- Witness for the amended C1 at the empty hint with no phone. -/
theorem c1_amended_fallback_witness :
    resolveSenderAddress "" none [] = some mockFallbackAddress ∧
    ((verifyMessageSignatureMock "Hello bank" sig64 mockFallbackAddress).isValid = true ↔
      (64 ≤ (cleanSignature sig64).length ∧ 0 < (jsTrimS "Hello bank").length)) :=
  c1_amended_fallback "" none [] "Hello bank" sig64 (by decide)
    (fun p hp => by simp at hp)

open SupabaseVerificationService in
/-- C3 counterexample: with a one-space content and a 64-character signature
the claimed condition (signature at least 64 and content length positive)
holds, yet the degraded verifier reports isValid false, because the content
is trimmed before the length check. -/
theorem c3_counterexample :
    (64 ≤ (cleanSignature sig64).length ∧ 0 < (" " : String).length) ∧
    (verifyMessageSignatureMock " " sig64 "0xabc").isValid = false := by
  decide

open SupabaseVerificationService in
/-- C3 amended: the degraded verifier trims the content and strips one
leading 0x from the signature before lower-casing it, then returns isValid
exactly when the cleaned signature has at least 64 characters and the
trimmed content is non-empty, with the placeholder organization identity and
a details blob whose method field is mock. -/
theorem c3_amended_mock_heuristic (content sig sender : String) :
    (verifyMessageSignatureMock content sig sender).isValid =
      (decide (64 ≤ (cleanSignature sig).length) &&
        decide (0 < (jsTrimS content).length)) ∧
    (verifyMessageSignatureMock content sig sender).organizationId = some "mock-org-1" ∧
    (verifyMessageSignatureMock content sig sender).organizationName =
      some "Mock Organization" ∧
    (verifyMessageSignatureMock content sig sender).verificationDetails =
      some { method := "mock", signature_format := "hex",
             message_hash := String.mk ((jsTrimS content).data.take 8) } := by
  exact ⟨rfl, rfl, rfl, rfl⟩

namespace SupabaseVerificationService

/-- Case analysis of resolveSenderAddress: it always succeeds, and the value
is the fallback, the address-shaped hint, or a directory hit. -/
theorem resolveSenderAddress_cases (hint : String) (phone : Option String)
    (orgs : List OrgRec) :
    ∃ a, resolveSenderAddress hint phone orgs = some a ∧
      (a = mockFallbackAddress ∨
       ((hint != "") = true ∧ a = hint) ∨
       (∃ p, phone = some p ∧ phoneDirectoryLookup p orgs = some a)) := by
  unfold resolveSenderAddress
  split
  next hcond =>
    refine ⟨hint, rfl, Or.inr (Or.inl ⟨?_, rfl⟩)⟩
    exact (Bool.and_eq_true _ _).mp hcond |>.1
  next =>
    cases phone with
    | none => exact ⟨mockFallbackAddress, rfl, Or.inl rfl⟩
    | some p =>
      cases hlk : phoneDirectoryLookup p orgs with
      | none => exact ⟨mockFallbackAddress, by simp [hlk], Or.inl rfl⟩
      | some w => exact ⟨w, by simp [hlk], Or.inr (Or.inr ⟨p, rfl, hlk⟩)⟩

end SupabaseVerificationService

/-- The organization directory of the C9 counterexample: a verified
organization matching the phone but carrying an empty wallet address. -/
def c9orgs : List SupabaseVerificationService.OrgRec :=
  [{ id := "org-phantom", name := "Phantom Org", wallet_address := "",
     verification_status := "verified", metadataPhone := some "5551234" }]

/-- An SMS with a valid SIG tag (and hence no DID sender hint). -/
def c9msg : String := "Hi [SIG:" ++ sig64 ++ "]"

open SupabaseVerificationService in
/-- C9 counterexample: the resolver indeed never returns null, yet the could
not resolve branch of verifySMSMessage is reachable: when the phone directory
yields a verified organization whose wallet address is the empty string, the
resolver returns that empty string and the falsy guard on the resolved
address fires. -/
theorem c9_counterexample :
    resolveSenderAddress "" (some "5551234") c9orgs = some "" ∧
    (verifySMSMessageMock c9msg (some "5551234") c9orgs).error =
      some "Could not resolve sender wallet address" := by
  decide

open SupabaseVerificationService in
/-- C9 amended: resolveSenderAddress never returns null for any input: it
returns the address-shaped hint, a directory-matched wallet, or the fixed
fallback address; the could-not-resolve error branch of verifySMSMessage is
consequently unreachable except when the phone directory yields an
organization whose wallet address is the empty string, the one value on
which the falsy guard fires despite a non-null resolution. -/
theorem c9_never_null (hint : String) (phone : Option String)
    (orgs : List OrgRec) :
    (resolveSenderAddress hint phone orgs).isSome = true ∧
    (∀ sms : String,
      (∀ p w, phone = some p → phoneDirectoryLookup p orgs = some w → w ≠ "") →
      (verifySMSMessageMock sms phone orgs).error ≠
        some "Could not resolve sender wallet address") := by
  constructor
  · obtain ⟨a, ha, _⟩ := resolveSenderAddress_cases hint phone orgs
    simp [ha]
  · intro sms hw
    simp only [verifySMSMessageMock]
    split
    · intro hcontra
      exact absurd hcontra (by decide)
    · obtain ⟨a, ha, hcase⟩ :=
        resolveSenderAddress_cases (parseSMSMessage sms).senderAddress phone orgs
      rw [ha]
      have hane : a ≠ "" := by
        rcases hcase with h1 | ⟨h2, h3⟩ | ⟨p, hp, hlk⟩
        · rw [h1]; decide
        · subst h3; simpa [bne_iff_ne] using h2
        · exact hw p a hp hlk
      simp [hane, verifyMessageSignatureMock]

open SupabaseVerificationService in
/-- Witness for the amended C9 at the empty hint with no phone. -/
theorem c9_never_null_witness :
    (resolveSenderAddress "" none []).isSome = true ∧
    (verifySMSMessageMock c5msg none []).error ≠
      some "Could not resolve sender wallet address" :=
  ⟨(c9_never_null "" none []).1,
   (c9_never_null "" none []).2 c5msg (fun p w hp _ => by simp at hp)⟩

/-! Claims about the Result Persister and the configured backend. -/

/-- The verified organization of the idempotence scenario. -/
def acmeOrg : SupabaseVerificationService.OrgRec :=
  { id := "org-1", name := "Acme Bank",
    wallet_address := "0x1111111111111111111111111111111111111111",
    verification_status := "verified" }

/-- A 128-character hex signature accepted by the hosted format check. -/
def sig128 : String := String.mk (List.replicate 128 'c')

/-- The empty backing store. -/
def emptyDb : Db := ⟨[], []⟩

/-- First verification of the repeated triple. -/
def c4run1 : VerificationResult RpcDetails × Db :=
  SupabaseVerificationService.verifyMessageSignatureCfg [acmeOrg] (some "user-1")
    false false "Test message for verification" sig128 acmeOrg.wallet_address
    "manual" emptyDb

/-- Second verification of the same triple, on the store the first left. -/
def c4run2 : VerificationResult RpcDetails × Db :=
  SupabaseVerificationService.verifyMessageSignatureCfg [acmeOrg] (some "user-1")
    false false "Test message for verification" sig128 acmeOrg.wallet_address
    "manual" c4run1.2

/-- C4: evaluation at the failing input. Verifying the same (content,
signature, sender) triple twice creates two VerifiedMessage rows: the client
insert is a plain insert, not an upsert, and it leaves message_hash null, so
the UNIQUE (signature, message_hash) constraint never fires under Postgres
null semantics. -/
theorem c4_duplicate_rows :
    (c4run1.1).isValid = true ∧ (c4run2.1).isValid = true ∧
    ((c4run2.2).messages.filter fun r => r.signature == sig128).length = 2 := by
  decide

/-- saveVerifiedMessage never touches the attempts table. -/
theorem saveVerifiedMessage_attempts (rls : Bool) (d : MsgRowData) (db : Db) :
    ((SupabaseLib.saveVerifiedMessage rls d db).2).attempts = db.attempts := by
  simp only [SupabaseLib.saveVerifiedMessage]
  split
  · rfl
  · split <;> rfl

/-- Without an authenticated user, saveVerificationResult writes no attempt
row. -/
theorem saveVerificationResult_attempts_of_none (rls att : Bool)
    (p : SupabaseVerificationService.SaveParams) (db : Db) :
    (SupabaseVerificationService.saveVerificationResult none rls att p db).attempts
      = db.attempts := by
  simp only [SupabaseVerificationService.saveVerificationResult]
  have h := saveVerifiedMessage_attempts rls
    { organization_id := p.organizationId, message_content := p.messageContent,
      signature := p.signature, sender_address := p.senderAddress,
      verification_status := "verified" } db
  rcases hsv : SupabaseLib.saveVerifiedMessage rls
    { organization_id := p.organizationId, message_content := p.messageContent,
      signature := p.signature, sender_address := p.senderAddress,
      verification_status := "verified" } db with ⟨fst, snd⟩
  rw [hsv] at h
  cases fst <;> exact h

open SupabaseVerificationService in
/-- C7: the VerificationResult returned by verifyMessageSignature depends
only on the hosted procedure output, never on the store or on persistence
failures; no VerifiedMessage row is written when the check fails; and no
VerificationAttempt row is written without an authenticated user. -/
theorem c7_persistence_best_effort (orgs : List OrgRec) (user : Option String)
    (rlsFail attFail rlsFail2 attFail2 : Bool)
    (content sig sender method : String) (db db2 : Db) :
    (verifyMessageSignatureCfg orgs user rlsFail attFail content sig sender method db).1 =
      (verifyMessageSignatureCfg orgs user rlsFail2 attFail2 content sig sender method db2).1 ∧
    ((SupabaseRpc.verify_message_signature orgs (jsTrimS content) (cleanSignature sig)
        (jsToLower sender)).is_valid = false →
      (verifyMessageSignatureCfg orgs user rlsFail attFail content sig sender method db).2
        = db) ∧
    (user = none →
      ((verifyMessageSignatureCfg orgs user rlsFail attFail content sig sender method db).2).attempts
        = db.attempts) := by
  refine ⟨rfl, ?_, ?_⟩
  · intro hv
    simp [verifyMessageSignatureCfg, hv]
  · intro hu
    subst hu
    simp only [verifyMessageSignatureCfg]
    split
    · exact saveVerificationResult_attempts_of_none _ _ _ _
    · rfl

open SupabaseVerificationService in
/-- Witness for C7 at an unknown sender (invalid outcome) with no user. -/
theorem c7_persistence_best_effort_witness :
    (verifyMessageSignatureCfg [] none false false "msg" "sg" "addr" "manual" emptyDb).1 =
      (verifyMessageSignatureCfg [] none true true "msg" "sg" "addr" "manual" emptyDb).1 ∧
    (verifyMessageSignatureCfg [] none false false "msg" "sg" "addr" "manual" emptyDb).2
      = emptyDb ∧
    ((verifyMessageSignatureCfg [] none false false "msg" "sg" "addr" "manual" emptyDb).2).attempts
      = emptyDb.attempts :=
  ⟨(c7_persistence_best_effort [] none false false true true
      "msg" "sg" "addr" "manual" emptyDb emptyDb).1,
   (c7_persistence_best_effort [] none false false true true
      "msg" "sg" "addr" "manual" emptyDb emptyDb).2.1 (by decide),
   (c7_persistence_best_effort [] none false false true true
      "msg" "sg" "addr" "manual" emptyDb emptyDb).2.2 rfl⟩

namespace DataSyncService

/-- Every body run performs exactly one fetch cycle. -/
theorem syncBody_fetches (e : SyncEnv) (st : SyncState) : (syncBody e st).2.2 = 1 := by
  unfold syncBody
  cases e.orgFetch <;> cases e.msgFetch <;> rfl

/-- The finally block always clears the in-progress flag. -/
theorem syncBody_clears (e : SyncEnv) (st : SyncState) :
    ((syncBody e st).1).syncInProgress = false := by
  unfold syncBody
  cases e.orgFetch <;> cases e.msgFetch <;> rfl

/-- A call that finds the service idle performs exactly one fetch cycle. -/
theorem syncData_runs (e : SyncEnv) (st : SyncState)
    (h : st.syncInProgress = false) : (syncData e st).2.2 = 1 := by
  simp [syncData, guardStep, h, syncBody_fetches]

end DataSyncService

open DataSyncService in
/-- C8: the guard prevents overlapping syncs: from an idle state, the first
invocation passes the guard and sets the flag; a second invocation arriving
while the first is in flight returns the current status (showing syncing
true) without touching the state and performs zero fetches, so the
interleaved pair performs exactly one fetch cycle. -/
theorem c8_no_overlapping_sync (e1 e2 : SyncEnv) (st : SyncState)
    (h : st.syncInProgress = false) :
    (guardStep st).1 = false ∧
    syncData e2 (guardStep st).2 =
      (getSyncStatus (guardStep st).2, (guardStep st).2, 0) ∧
    (getSyncStatus (guardStep st).2).syncInProgress = true ∧
    (syncBody e1 (guardStep st).2).2.2 + (syncData e2 (guardStep st).2).2.2 = 1 := by
  have hg : guardStep st = (false, { st with syncInProgress := true }) := by
    simp [guardStep, h]
  refine ⟨by simp [hg], ?_, by simp [hg, getSyncStatus], ?_⟩
  · rw [hg]
    simp [syncData, guardStep, getSyncStatus]
  · rw [hg]
    simp [syncData, guardStep, syncBody_fetches]

open DataSyncService in
/-- C10: every call that actually starts a sync leaves the flag cleared,
whatever the two fetches do, and a subsequent call can start a new fetch
cycle. -/
theorem c10_flag_reset (e e2 : SyncEnv) (st : SyncState)
    (h : st.syncInProgress = false) :
    ((syncData e st).2.1).syncInProgress = false ∧
    (syncData e2 ((syncData e st).2.1)).2.2 = 1 := by
  have h1 : (syncData e st).2.1 = (syncBody e { st with syncInProgress := true }).1 := by
    simp [syncData, guardStep, h]
  constructor
  · rw [h1]
    exact syncBody_clears _ _
  · refine syncData_runs e2 _ ?_
    rw [h1]
    exact syncBody_clears _ _

/-- The idle sync state used by the witnesses. -/
def idleSyncState : DataSyncService.SyncState := ⟨false, none, none, none⟩

/-- A sync environment where both fetches succeed. -/
def okEnv : DataSyncService.SyncEnv :=
  ⟨.ok "orgs-payload", .ok "msgs-payload", "2026-01-01T00:00:00Z"⟩

/-- A sync environment where the organizations fetch throws. -/
def failEnv : DataSyncService.SyncEnv :=
  ⟨.error "network down", .ok "msgs-payload", "2026-01-01T00:00:00Z"⟩

open DataSyncService in
/-- Witness for C8 at the idle state with two successful environments. -/
theorem c8_no_overlapping_sync_witness :
    (guardStep idleSyncState).1 = false ∧
    syncData okEnv (guardStep idleSyncState).2 =
      (getSyncStatus (guardStep idleSyncState).2, (guardStep idleSyncState).2, 0) ∧
    (getSyncStatus (guardStep idleSyncState).2).syncInProgress = true ∧
    (syncBody okEnv (guardStep idleSyncState).2).2.2 +
      (syncData okEnv (guardStep idleSyncState).2).2.2 = 1 :=
  c8_no_overlapping_sync okEnv okEnv idleSyncState rfl

open DataSyncService in
/-- Witness for C10 at the idle state with a failing organizations fetch. -/
theorem c10_flag_reset_witness :
    ((syncData failEnv idleSyncState).2.1).syncInProgress = false ∧
    (syncData okEnv ((syncData failEnv idleSyncState).2.1)).2.2 = 1 :=
  c10_flag_reset failEnv okEnv idleSyncState rfl
